import Mathlib

/-!
Verification of the SafeSheet SQL Impact & Risk Analysis Engine
(`safesheet/parser.py`, `safesheet/risk_assessor.py`, `safesheet/dry_run.py`,
`safesheet/safety_report.py`).

The SQL parsing library (sqlglot) and the in-memory execution engine (DuckDB)
are external collaborators that the spec declares out of scope and assumed
correct.  They are modelled abstractly:

* a parsed statement (`ParsedStmt`) records exactly the observations the
  Python code makes of the sqlglot AST: the uppercased class name of the root
  node, the shape of the root where the code inspects it (`isinstance` checks
  for `exp.Update` / `exp.Insert` together with the fields read from them),
  the names of all `exp.Table` nodes in traversal order, and the presence /
  text of a WHERE clause;
* the DuckDB engine is a table store (`EngineState`); `SELECT COUNT(*) FROM t`
  and `SELECT ... LIMIT k` are modelled by deterministic reads, and the
  execution of the analysed statement itself is an abstract state transformer
  `execSql` supplied by the environment (it may fail with a message, exactly
  like `conn.execute`).  A missing table produces DuckDB's
  "Catalog Error: Table with name ... does not exist!" message, which is what
  the Python code's substring heuristic inspects.

Python `set`s are modelled as first-occurrence-deduplicated lists
(iteration order of a CPython set is unspecified; only membership and
cardinality of these sets matter to the verified properties).
-/

/-! ## String utilities (models of Python `in`, `", ".join`, `str(int)`) -/

/-- Model of Python's substring test `pat in text`. -/
def strContains (text pat : String) : Bool :=
  decide (pat.data <:+: text.data)

/-- Model of Python's `", ".join(xs)`. -/
def joinComma : List String → String
  | [] => ""
  | [t] => t
  | t :: ts => t ++ ", " ++ joinComma ts

/-- Model of Python's `" ".join(xs)`. -/
def joinSpace : List String → String
  | [] => ""
  | [t] => t
  | t :: ts => t ++ " " ++ joinSpace ts

/-- Model of Python's `str(n)` for a non-negative integer: decimal digits. -/
def natStr (n : Nat) : String :=
  if h : n < 10 then String.mk [Char.ofNat (48 + n)]
  else natStr (n / 10) ++ String.mk [Char.ofNat (48 + n % 10)]
  decreasing_by exact Nat.div_lt_self (by omega) (by omega)

/-! ## Statement Analyzer (`safesheet/parser.py`, class `SQLParser`) -/

/-- Shape of the root AST node, as far as `SQLParser` inspects it.

* `updateRoot thisTable setCols`: the root is an `exp.Update`; `thisTable` is
  `some n` when `parsed.this` is an `exp.Table` named `n` (the code's
  `isinstance(table_expr, exp.Table)` test), `none` otherwise; `setCols` are
  the column names collected from the `SET` assignments
  (`find_all(exp.Set)` / `exp.EQ` left-hand sides and bare columns, in order).
* `insertRoot tbl cols`: the root is an `exp.Insert`; `tbl` is
  `insert.this.name` and `cols` the names of all `exp.Column` nodes below the
  insert, in order.  (For a single parsed statement the only `exp.Insert`
  node `find_all` can produce is the root itself.)  When the INSERT has no
  explicit column list, `insert.this` is the target `exp.Table` and `tbl` is
  its name; when a column list is present, `insert.this` is an `exp.Schema`
  wrapping the table, and `Expression.name` (`text("this")`) returns the
  empty string for it, so `tbl` is `""`.
* `plainRoot`: any other root node; `get_affected_columns` never looks
  inside it. -/
inductive RootNode where
  | updateRoot (thisTable : Option String) (setCols : List String)
  | insertRoot (tbl : String) (cols : List String)
  | plainRoot
deriving DecidableEq

/-- A successfully parsed SQL statement, i.e. the observations `SQLParser`
makes of the sqlglot AST.  `nodeKind` is `type(self.parsed).__name__.upper()`;
`tables` lists the name of every `exp.Table` node found by `find_all`
(traversal order, possibly with duplicates); `hasWhere` and `whereText` model
`find(exp.Where)` and its SQL rendering. -/
structure ParsedStmt where
  nodeKind : String
  root : RootNode
  tables : List String
  hasWhere : Bool
  whereText : Option String
deriving DecidableEq

/-- The `type_mapping` dict of `SQLParser.get_statement_type`, in insertion
order. -/
def type_mapping : List (String × String) :=
  [("SELECT", "SELECT"), ("UPDATE", "UPDATE"), ("DELETE", "DELETE"),
   ("INSERT", "INSERT"), ("CREATE", "CREATE"), ("ALTER", "ALTER"),
   ("DROP", "DROP"), ("TRUNCATE", "TRUNCATE")]

/-- `SQLParser.get_statement_type`: the first mapping key occurring as a
substring of the root node's class name wins; otherwise the class name itself
is returned. -/
def get_statement_type (p : ParsedStmt) : String :=
  match type_mapping.find? (fun kv => strContains p.nodeKind kv.1) with
  | some kv => kv.2
  | none => p.nodeKind

/-- `SQLParser.get_affected_tables`: the set of names of all `exp.Table`
nodes (modelled as a first-occurrence-deduplicated list). -/
def get_affected_tables (p : ParsedStmt) : List String :=
  p.tables.dedup

/-- `SQLParser.get_affected_columns`: mapping from table names to column-name
sets, by statement type (dict modelled as an association list, sets as
deduplicated lists). -/
def get_affected_columns (p : ParsedStmt) : List (String × List String) :=
  let st := get_statement_type p
  if st = "UPDATE" then
    match p.root with
    | .updateRoot thisTable setCols =>
        let table_name :=
          match thisTable with
          | some n => n
          | none =>
              match p.tables with
              | [] => "unknown"
              | t :: _ => t
        [(table_name, setCols.dedup)]
    | _ => []
  else if st = "INSERT" then
    match p.root with
    | .insertRoot tbl cols => [(tbl, cols.dedup)]
    | _ => []
  else if st = "DELETE" then
    (get_affected_tables p).map (fun t => (t, []))
  else if st = "ALTER" ∨ st = "DROP" ∨ st = "TRUNCATE" then
    (get_affected_tables p).map (fun t => (t, []))
  else []

/-- `SQLParser.has_where_clause`. -/
def has_where_clause (p : ParsedStmt) : Bool := p.hasWhere

/-- `SQLParser.get_where_clause`. -/
def get_where_clause (p : ParsedStmt) : Option String := p.whereText

/-- The dictionary returned by `SQLParser.get_impact_radius`. -/
structure ImpactRadius where
  statement_type : String
  affected_tables : List String
  affected_columns : List (String × List String)
  has_where : Bool
  where_clause : Option String
deriving DecidableEq

/-- `SQLParser.get_impact_radius`. -/
def get_impact_radius (p : ParsedStmt) : ImpactRadius :=
  { statement_type := get_statement_type p
    affected_tables := get_affected_tables p
    affected_columns := get_affected_columns p
    has_where := has_where_clause p
    where_clause := get_where_clause p }

/-! ## Risk Assessor (`safesheet/risk_assessor.py`, class `RiskAssessor`) -/

def HIGH_RISK_STATEMENTS : List String := ["ALTER", "DROP", "TRUNCATE"]

def MEDIUM_RISK_STATEMENTS : List String := ["UPDATE", "DELETE"]

def LOW_RISK_STATEMENTS : List String := ["SELECT", "INSERT"]

/-- `RiskAssessor._determine_risk_level`. -/
def determine_risk_level (statement_type : String) : String :=
  if HIGH_RISK_STATEMENTS.contains statement_type then "High"
  else if MEDIUM_RISK_STATEMENTS.contains statement_type then "Medium"
  else if LOW_RISK_STATEMENTS.contains statement_type then "Low"
  else "Medium"

/-- The f-string of the missing-WHERE CRITICAL warning
(`risk_assessor.py` line 75). -/
def criticalWarning (statement_type : String) (affected_tables : List String) : String :=
  "⚠️  CRITICAL: This " ++ statement_type ++
    " statement lacks a WHERE clause and will affect ALL rows in " ++
    (if affected_tables ≠ [] then joinComma affected_tables else "target table(s)") ++ "."

/-- The f-string of the multi-table fan-out warning
(`risk_assessor.py` line 82). -/
def fanoutWarning (n : Nat) : String :=
  "⚠️  WARNING: This statement affects " ++ natStr n ++
    " tables, increasing the risk of unintended side effects."

def alterHighWarning : String :=
  "⚠️  HIGH RISK: ALTER statements modify table structure and cannot be easily undone."

def dropHighWarning : String :=
  "⚠️  HIGH RISK: DROP statements permanently delete database objects (tables, columns, etc.)."

def truncateHighWarning : String :=
  "⚠️  HIGH RISK: TRUNCATE permanently deletes all rows from a table without logging individual row deletions."

/-- `RiskAssessor._generate_warnings`: the three rules, applied in order,
appending to one list. -/
def generate_warnings (statement_type : String) (impact_radius : ImpactRadius) : List String :=
  let w1 : List String :=
    if HIGH_RISK_STATEMENTS.contains statement_type then
      if statement_type = "ALTER" then [alterHighWarning]
      else if statement_type = "DROP" then [dropHighWarning]
      else if statement_type = "TRUNCATE" then [truncateHighWarning]
      else []
    else []
  let w2 : List String :=
    if (statement_type = "UPDATE" ∨ statement_type = "DELETE")
        ∧ impact_radius.has_where = false then
      [criticalWarning statement_type impact_radius.affected_tables]
    else []
  let w3 : List String :=
    if impact_radius.affected_tables.length > 3 then
      [fanoutWarning impact_radius.affected_tables.length]
    else []
  w1 ++ w2 ++ w3

/-- `RiskAssessor._generate_explanation`. -/
def generate_explanation (risk_level statement_type : String)
    (impact_radius : ImpactRadius) : String :=
  let affected_tables := impact_radius.affected_tables
  let tablesText :=
    if affected_tables ≠ [] then joinComma affected_tables else "the target table"
  let part2 : List String :=
    if risk_level = "High" then
      ["This is a " ++ statement_type ++
        " statement, which is classified as HIGH RISK because it permanently modifies database structure or deletes data without row-level logging."]
    else if risk_level = "Medium" then
      if statement_type = "UPDATE" ∨ statement_type = "DELETE" then
        if impact_radius.has_where = false then
          ["This " ++ statement_type ++ " statement will affect ALL rows in " ++
            tablesText ++ " because it lacks a WHERE clause."]
        else
          ["This " ++ statement_type ++ " statement will modify data in " ++
            tablesText ++ "."]
      else []
    else if risk_level = "Low" then
      if statement_type = "SELECT" then
        ["This is a SELECT statement (read-only), which poses minimal risk."]
      else if statement_type = "INSERT" then
        ["This INSERT statement will add new rows to " ++ tablesText ++ "."]
      else []
    else []
  joinSpace (("Risk Level: " ++ risk_level) :: part2)

/-- The dictionary returned by `RiskAssessor.assess_risk`. -/
structure RiskAssessment where
  risk_level : String
  statement_type : String
  warnings : List String
  explanation : String
deriving DecidableEq

/-- `RiskAssessor.assess_risk`. -/
def assess_risk (p : ParsedStmt) : RiskAssessment :=
  let statement_type := get_statement_type p
  let impact_radius := get_impact_radius p
  let risk_level := determine_risk_level statement_type
  { risk_level := risk_level
    statement_type := statement_type
    warnings := generate_warnings statement_type impact_radius
    explanation := generate_explanation risk_level statement_type impact_radius }

/-! ## Dry-Run Simulator (`safesheet/dry_run.py`, class `DryRunEngine`) -/

/-- A result row, as returned by the engine's `fetchall` (opaque payload). -/
abbrev Row := List String

/-- The in-memory DuckDB instance: its current tables with their rows
(possibly pre-seeded from `sample_data`). -/
structure EngineState where
  tables : List (String × List Row)
deriving DecidableEq

/-- DuckDB's catalog error for a missing table.  The exact wording of the
real engine is assumed only to contain the substrings `"does not exist"` and
`"Table with name"` that `DryRunEngine` tests for. -/
def missingTableMsg (t : String) : String :=
  "Catalog Error: Table with name " ++ t ++ " does not exist!"

/-- Model of `conn.execute(f"SELECT COUNT(*) FROM {t}").fetchone()[0]`. -/
def countStar (st : EngineState) (t : String) : Except String Nat :=
  match st.tables.lookup t with
  | some rows => .ok rows.length
  | none => .error (missingTableMsg t)

/-- Model of `conn.execute(f"SELECT * FROM {t} LIMIT {k}").fetchall()`. -/
def selectLimit (st : EngineState) (t : String) (k : Nat) : Except String (List Row) :=
  match st.tables.lookup t with
  | some rows => .ok (rows.take k)
  | none => .error (missingTableMsg t)

/-- Model of `conn.execute(f"SELECT 1 FROM {t} LIMIT 1")` used by the ALTER
branch as a table-existence probe (any exception counts as "missing"). -/
def tableExists (st : EngineState) (t : String) : Bool :=
  (st.tables.lookup t).isSome

/-- The statement-execution behaviour of the external engine for the analysed
SQL text: from an engine state, either a descriptive error or the post-state
together with the fetched rows (empty for DML). -/
abbrev ExecSql := EngineState → Except String (EngineState × List Row)

/-- The `"does not exist" in error_str or "Table with name" in error_str`
heuristic used throughout `DryRunEngine.simulate`. -/
def isMissingTableError (msg : String) : Bool :=
  strContains msg "does not exist" || strContains msg "Table with name"

/-- `estimated_rows_affected` is either an integer or a qualitative string. -/
inductive RowEst where
  | num (n : Int)
  | text (s : String)
deriving DecidableEq

/-! ### ALTER structural sub-analysis (`DryRunEngine._analyze_alter_statement`)

The Python code runs five `re.search` patterns over the uppercased statement
text.  They are ported as explicit scanners.  Because every quantifier in
those patterns (`\s+`, `\w+`, `\d+`, `\s*`) is always followed by a token
that cannot match a character of the quantifier's class, maximal munch is
equivalent to the regex engine's backtracking, and the only alternations
(the optional `(?:COLUMN\s+)?` / `(?:CONSTRAINT\s+)?` groups and
`(?:MODIFY|ALTER\s+COLUMN)`) are ported as ordered alternatives. -/

/-- Python regex `\w`: `[a-zA-Z0-9_]` (input is pure-ASCII uppercased SQL). -/
def isWordChar (c : Char) : Bool :=
  ('A' ≤ c ∧ c ≤ 'Z') ∨ ('a' ≤ c ∧ c ≤ 'z') ∨ ('0' ≤ c ∧ c ≤ '9') ∨ c = '_'

/-- Python regex `\s`: ASCII whitespace. -/
def isSpaceChar (c : Char) : Bool :=
  c = ' ' ∨ c = '\t' ∨ c = '\n' ∨ c = '\r' ∨ c = '\x0b' ∨ c = '\x0c'

/-- Python regex `\d`. -/
def isDigitChar (c : Char) : Bool := '0' ≤ c ∧ c ≤ '9'

/-- Model of Python's `str.upper()` (ASCII inputs; character-wise map). -/
def pyUpper (s : String) : String := String.mk (s.data.map Char.toUpper)

/-- Model of Python's `str.lower()` (ASCII inputs; character-wise map). -/
def pyLower (s : String) : String := String.mk (s.data.map Char.toLower)

/-- Model of Python's `str.strip()`: remove leading and trailing
whitespace. -/
def pyStrip (s : String) : String :=
  String.mk (((s.data.dropWhile isSpaceChar).reverse.dropWhile isSpaceChar).reverse)

/-- Match a literal, returning the rest of the text. -/
def stripLit : List Char → List Char → Option (List Char)
  | [], cs => some cs
  | _ :: _, [] => none
  | p :: ps, c :: cs => if c = p then stripLit ps cs else none

/-- Match `\s+` (at least one whitespace character, maximal munch). -/
def ws1 : List Char → Option (List Char)
  | [] => none
  | c :: cs => if isSpaceChar c then some (cs.dropWhile isSpaceChar) else none

/-- Match `(\w+)` (maximal munch), returning the captured word and the rest. -/
def word1 (cs : List Char) : Option (String × List Char) :=
  match cs.takeWhile isWordChar with
  | [] => none
  | w => some (String.mk w, cs.dropWhile isWordChar)

/-- `re.search`: try the position matcher at every start position, leftmost
first. -/
def searchWith (m : List Char → Option α) : List Char → Option α
  | [] => m []
  | c :: cs =>
    match m (c :: cs) with
    | some r => some r
    | none => searchWith m cs

/-- Position matcher for `ADD\s+(?:COLUMN\s+)?(\w+)` (and, with another
keyword, `DROP\s+(?:COLUMN\s+)?(\w+)` / `ADD\s+(?:CONSTRAINT\s+)?(\w+)`). -/
def matchKwOptKwWordAt (kw optKw : String) (cs : List Char) : Option String :=
  (stripLit kw.data cs).bind fun cs1 =>
  (ws1 cs1).bind fun cs2 =>
    match (stripLit optKw.data cs2).bind (fun cs3 =>
            (ws1 cs3).bind (fun cs4 => (word1 cs4).map Prod.fst)) with
    | some w => some w
    | none => (word1 cs2).map Prod.fst

/-- Position matcher for
`RENAME\s+(?:COLUMN\s+)?(\w+)\s+TO\s+(\w+)` (two captures). -/
def matchRenameAt (cs : List Char) : Option (String × String) :=
  let tailMatch : List Char → Option (String × String) := fun cs2 =>
    (word1 cs2).bind fun (w1, r1) =>
    (ws1 r1).bind fun r2 =>
    (stripLit "TO".data r2).bind fun r3 =>
    (ws1 r3).bind fun r4 =>
    (word1 r4).map fun (w2, _) => (w1, w2)
  (stripLit "RENAME".data cs).bind fun cs1 =>
  (ws1 cs1).bind fun cs2 =>
    match (stripLit "COLUMN".data cs2).bind (fun cs3 =>
            (ws1 cs3).bind tailMatch) with
    | some r => some r
    | none => tailMatch cs2

/-- Position matcher for `(?:MODIFY|ALTER\s+COLUMN)\s+(\w+)`. -/
def matchModifyAt (cs : List Char) : Option String :=
  match (stripLit "MODIFY".data cs).bind (fun r1 =>
          (ws1 r1).bind (fun r2 => (word1 r2).map Prod.fst)) with
  | some w => some w
  | none =>
    (stripLit "ALTER".data cs).bind fun r1 =>
    (ws1 r1).bind fun r2 =>
    (stripLit "COLUMN".data r2).bind fun r3 =>
    (ws1 r3).bind fun r4 =>
    (word1 r4).map Prod.fst

/-- Position matcher for `DROP\s+CONSTRAINT\s+(\w+)`. -/
def matchDropConstraintAt (cs : List Char) : Option String :=
  (stripLit "DROP".data cs).bind fun r1 =>
  (ws1 r1).bind fun r2 =>
  (stripLit "CONSTRAINT".data r2).bind fun r3 =>
  (ws1 r3).bind fun r4 =>
  (word1 r4).map Prod.fst

/-- The capture `(\w+(?:\s*\(\s*\d+\s*\))?)` of the column-type pattern: a
word, optionally followed by a parenthesised number, captured verbatim. -/
def typeCapture (cs : List Char) : Option String :=
  (word1 cs).bind fun (w, rest) =>
    let parenPart : Option String :=
      let sp1 := rest.takeWhile isSpaceChar
      match rest.dropWhile isSpaceChar with
      | '(' :: r2 =>
        let sp2 := r2.takeWhile isSpaceChar
        let r3 := r2.dropWhile isSpaceChar
        match r3.takeWhile isDigitChar with
        | [] => none
        | ds =>
          let r4 := r3.dropWhile isDigitChar
          let sp3 := r4.takeWhile isSpaceChar
          match r4.dropWhile isSpaceChar with
          | ')' :: _ =>
            some (String.mk (sp1 ++ '(' :: (sp2 ++ ds ++ sp3)) ++ ")")
          | _ => none
      | _ => none
    match parenPart with
    | some pp => some (w ++ pp)
    | none => some w

/-- Position matcher for the interpolated pattern
`ADD\s+(?:COLUMN\s+)?{col_name}\s+(\w+(?:\s*\(\s*\d+\s*\))?)`. -/
def matchAddTypeAt (colName : String) (cs : List Char) : Option String :=
  let tailMatch : List Char → Option String := fun cs2 =>
    (stripLit colName.data cs2).bind fun r1 =>
    (ws1 r1).bind fun r2 => typeCapture r2
  (stripLit "ADD".data cs).bind fun cs1 =>
  (ws1 cs1).bind fun cs2 =>
    match (stripLit "COLUMN".data cs2).bind (fun cs3 =>
            (ws1 cs3).bind tailMatch) with
    | some r => some r
    | none => tailMatch cs2

/-- The `alter_operation` / `alter_details` / `impact_summary` fields built by
`DryRunEngine._analyze_alter_statement`. -/
structure AlterAnalysis where
  alter_operation : String
  operations : List String
  columns_affected : List String
  tables_affected : List String
  impact_summary : Option String
deriving DecidableEq

def renameImpact : String := "üîÑ Will rename columns (data preserved)"

def dropImpact : String := "‚ö†Ô∏è Will permanently remove columns/constraints"

def addImpact : String := "‚ûï Will add new columns/constraints"

def modifyImpact : String := "üîÑ Will modify existing column structure"

/-- `DryRunEngine._analyze_alter_statement`: the five `re.search` patterns
over `sql.upper().strip()`, in source order, accumulating `operations` and
`columns_affected`, the keyword fallback when nothing matched, and the
priority-ordered `impact_summary`. -/
def analyze_alter_statement (sql : String) (affected_tables : List String) :
    AlterAnalysis :=
  let sql_upper := pyStrip (pyUpper sql)
  let cs := sql_upper.data
  let addCol := searchWith (matchKwOptKwWordAt "ADD" "COLUMN") cs
  let opsCols1 : List String × List String :=
    match addCol with
    | some col_name =>
      let col_type :=
        match searchWith (matchAddTypeAt col_name) cs with
        | some t => t
        | none => "Unknown type"
      (["ADD COLUMN " ++ col_name ++ " (" ++ col_type ++ ")"], [col_name])
    | none => ([], [])
  let opsCols2 : List String × List String :=
    match searchWith (matchKwOptKwWordAt "DROP" "COLUMN") cs with
    | some col_name =>
      (opsCols1.1 ++ ["DROP COLUMN " ++ col_name], opsCols1.2 ++ [col_name])
    | none => opsCols1
  let opsCols3 : List String × List String :=
    match searchWith matchRenameAt cs with
    | some (oldName, newName) =>
      (opsCols2.1 ++ ["RENAME COLUMN " ++ oldName ++ " TO " ++ newName],
       opsCols2.2 ++ [oldName, newName])
    | none => opsCols2
  let opsCols4 : List String × List String :=
    match searchWith matchModifyAt cs with
    | some col_name =>
      (opsCols3.1 ++ ["MODIFY COLUMN " ++ col_name], opsCols3.2 ++ [col_name])
    | none => opsCols3
  let ops5 : List String :=
    match searchWith (matchKwOptKwWordAt "ADD" "CONSTRAINT") cs with
    | some constraint_name =>
      if strContains sql_upper "COLUMN" = false then
        opsCols4.1 ++ ["ADD CONSTRAINT " ++ constraint_name]
      else opsCols4.1
    | none => opsCols4.1
  let ops6 : List String :=
    match searchWith matchDropConstraintAt cs with
    | some constraint_name => ops5 ++ ["DROP CONSTRAINT " ++ constraint_name]
    | none => ops5
  let operations : List String :=
    if ops6 = [] then
      if strContains sql_upper "ADD" then ["ADD (operation type)"]
      else if strContains sql_upper "DROP" then ["DROP (operation type)"]
      else if strContains sql_upper "RENAME" then ["RENAME (operation type)"]
      else if strContains sql_upper "MODIFY" ∨ strContains sql_upper "ALTER COLUMN" then
        ["MODIFY (operation type)"]
      else ["ALTER TABLE"]
    else ops6
  let columns_affected := opsCols4.2
  let impact_summary : String :=
    if operations ≠ [] then
      let ops_str := pyUpper (joinSpace operations)
      if strContains ops_str "RENAME" then renameImpact
      else if strContains ops_str "DROP" then dropImpact
      else if strContains ops_str "ADD" then addImpact
      else if strContains ops_str "MODIFY" then modifyImpact
      else "Will modify table structure"
    else "Will modify table structure"
  { alter_operation :=
      if operations ≠ [] then joinComma operations else "ALTER TABLE"
    operations := operations
    columns_affected := columns_affected.dedup
    tables_affected := affected_tables
    impact_summary := some impact_summary }

/-- The dictionary built by `DryRunEngine.simulate` (the ALTER sub-analysis
fields flattened in). -/
structure SimOutcome where
  simulation_successful : Bool := false
  statement_type : String := ""
  affected_tables : List String := []
  estimated_rows_affected : Option RowEst := none
  error : Option String := none
  preview : Option (List Row) := none
  note : Option String := none
  alter : Option AlterAnalysis := none
deriving DecidableEq

def updateMissingError (e : String) : String :=
  "Note: Dry-run cannot execute SQL without actual table structure. This is expected behavior. Original error: " ++ e

def updateMissingError2 : String :=
  "Note: Dry-run cannot execute SQL without actual table structure. This is expected behavior."

def missingTableNote : String :=
  "Dry-run simulation requires actual database tables. The SQL syntax appears valid."

/-- `DryRunEngine.simulate`.  Takes the statement text (used only by the
ALTER sub-analysis), the parsed statement, the abstract engine semantics of
that statement, and the (possibly `sample_data`-seeded) engine state; returns
the outcome dictionary together with the engine state after the call. -/
def simulate (sql : String) (p : ParsedStmt) (execSql : ExecSql)
    (st : EngineState) : SimOutcome × EngineState :=
  let impact_radius := get_impact_radius p
  let statement_type := impact_radius.statement_type
  let affected_tables := impact_radius.affected_tables
  let base : SimOutcome :=
    { simulation_successful := false
      statement_type := statement_type
      affected_tables := affected_tables }
  if statement_type = "SELECT" then
    match execSql st with
    | .ok (st', rows) =>
      ({ base with
          simulation_successful := true
          preview := some (rows.take 10)
          estimated_rows_affected := some (.num rows.length) }, st')
    | .error e => ({ base with error := some e }, st)
  else if statement_type = "UPDATE" then
    match affected_tables with
    | [] => (base, st)
    | table_name :: _ =>
      match countStar st table_name with
      | .error e =>
        if isMissingTableError e then
          ({ base with
              error := some (updateMissingError e)
              note := some missingTableNote }, st)
        else
          -- `count_before = 0` and fall through to the execution attempt
          simulateUpdateExec base table_name execSql st
      | .ok _ => simulateUpdateExec base table_name execSql st
  else if statement_type = "DELETE" then
    match affected_tables with
    | [] => (base, st)
    | table_name :: _ =>
      match countStar st table_name with
      | .error e => (simulateDeleteErr base e, st)
      | .ok count_before =>
        match execSql st with
        | .error e => (simulateDeleteErr base e, st)
        | .ok (st', _) =>
          match countStar st' table_name with
          | .error e => (simulateDeleteErr base e, st')
          | .ok count_after =>
            ({ base with
                simulation_successful := true
                estimated_rows_affected :=
                  some (.num ((count_before : Int) - (count_after : Int))) }, st')
  else if statement_type = "INSERT" then
    match execSql st with
    | .error e =>
      -- uncaught by the INSERT branch; lands in the outer `except`
      ({ base with error := some e }, st)
    | .ok (st', _) =>
      match affected_tables with
      | [] => (base, st')
      | table_name :: _ =>
        match countStar st' table_name with
        | .ok _ =>
          ({ base with
              simulation_successful := true
              estimated_rows_affected :=
                some (.text "Unknown (may be 1 or more)") }, st')
        | .error _ => ({ base with simulation_successful := true }, st')
  else if statement_type = "ALTER" then
    let withAlter :=
      { base with alter := some (analyze_alter_statement sql affected_tables) }
    match affected_tables with
    | [] => (withAlter, st)
    | table_name :: _ =>
      if tableExists st table_name then
        match execSql st with
        | .ok (st', _) =>
          ({ withAlter with
              simulation_successful := true
              note := some "ALTER statement executed successfully in simulation. In production, this will modify the actual table structure." }, st')
        | .error e =>
          if strContains (pyLower e) "not supported" || strContains (pyLower e) "syntax" then
            ({ withAlter with
                error := some ("ALTER operation syntax validated, but specific operation may not be fully supported by DuckDB. Original error: " ++ e)
                note := some "The SQL syntax appears valid. This operation will modify table structure in production." }, st)
          else
            ({ withAlter with
                error := some ("Could not simulate ALTER: " ++ e) }, st)
      else
        ({ withAlter with
            note := some "Table structure not available in simulation. The SQL syntax has been validated and the operation type has been identified." }, st)
  else if statement_type = "DROP" then
    match affected_tables with
    | [] =>
      ({ base with error := some "Could not identify objects to be dropped." }, st)
    | _ :: _ =>
      ({ base with
          note := some ("DROP statement will permanently delete: " ++
            joinComma affected_tables ++
            ". This cannot be simulated without actual database objects.")
          estimated_rows_affected :=
            some (.text "All data in affected objects will be lost") }, st)
  else if statement_type = "TRUNCATE" then
    match affected_tables with
    | [] => (base, st)
    | table_name :: _ =>
      match countStar st table_name with
      | .error e => (simulateTruncateErr base e, st)
      | .ok count_before =>
        match execSql st with
        | .error e => (simulateTruncateErr base e, st)
        | .ok (st', _) =>
          match countStar st' table_name with
          | .error e => (simulateTruncateErr base e, st')
          | .ok count_after =>
            ({ base with
                simulation_successful := true
                estimated_rows_affected :=
                  some (.num ((count_before : Int) - (count_after : Int)))
                note := some ("TRUNCATE would remove all " ++ natStr count_before ++
                  " rows from " ++ table_name) }, st')
  else if statement_type = "CREATE" then
    match execSql st with
    | .ok (st', _) =>
      ({ base with
          simulation_successful := true
          note := some "CREATE statement executed successfully in simulation." }, st')
    | .error e =>
      ({ base with
          note := some ("CREATE statement syntax validated. Original error: " ++ e) }, st)
  else
    ({ base with
        note := some (statement_type ++
          " statement syntax validated. Full simulation requires actual database connection.") }, st)
where
  /-- The execution attempt of the UPDATE branch, including the best-effort
  5-row preview. -/
  simulateUpdateExec (base : SimOutcome) (table_name : String)
      (execSql : ExecSql) (st : EngineState) : SimOutcome × EngineState :=
    match execSql st with
    | .ok (st', _) =>
      let withSuccess :=
        { base with
            simulation_successful := true
            estimated_rows_affected :=
              some (.text "Unknown (table may not exist in simulation)") }
      match selectLimit st' table_name 5 with
      | .ok preview_rows => ({ withSuccess with preview := some preview_rows }, st')
      | .error _ => (withSuccess, st')
    | .error e =>
      if isMissingTableError e then
        ({ base with
            error := some updateMissingError2
            note := some missingTableNote }, st)
      else
        ({ base with
            error := some ("Could not simulate UPDATE: " ++ e) }, st)
  /-- The `except` block of the DELETE branch. -/
  simulateDeleteErr (base : SimOutcome) (e : String) : SimOutcome :=
    if isMissingTableError e then
      { base with
          error := some (updateMissingError e)
          note := some missingTableNote }
    else
      { base with error := some ("Could not simulate DELETE: " ++ e) }
  /-- The `except` block of the TRUNCATE branch. -/
  simulateTruncateErr (base : SimOutcome) (e : String) : SimOutcome :=
    if isMissingTableError e then
      { base with
          note := some "TRUNCATE statement syntax validated. In production, this will remove all rows from the table." }
    else
      { base with error := some ("Could not simulate TRUNCATE: " ++ e) }

/-! ## Report Composer (`safesheet/safety_report.py`, class `SafetyReport`) -/

/-- `SQLParser._parse`: the external parsing library either returns an AST or
raises `ParseError` with a message `e`; the code re-raises
`ValueError(f"Failed to parse SQL: {e}")`.  The library is modelled as an
oracle `String → Except String ParsedStmt`; `SQLParser.__init__` strips the
input first. -/
def sqlparser_init (parseOracle : String → Except String ParsedStmt)
    (sql : String) : Except String ParsedStmt :=
  match parseOracle (pyStrip sql) with
  | .ok p => .ok p
  | .error e => .error ("Failed to parse SQL: " ++ e)

/-- The placeholder rollback script stored on a rollback-generation failure
(`safety_report.py` line 48). -/
def rollbackPlaceholder (e : String) : String :=
  "-- Error generating rollback: " ++ e ++ "\n-- Manual rollback may be required."

/-- The report dictionary built by `SafetyReport.generate` (the `impact`
sub-dictionary flattened in). -/
structure Report where
  sql : String
  risk_level : String
  statement_type : String
  tables_affected : Nat
  tables : List String
  columns_affected : Nat
  columns_by_table : List (String × List String)
  has_where : Bool
  warnings : List String
  explanation : String
  rollback_script : Option String
  rollback_error : Option String
  dry_run : Option SimOutcome
deriving DecidableEq

/-- `SafetyReport.generate` for an already-parsed statement.  The external
rollback collaborator is an oracle `rollbackRes` (an undo script or a raised
error); the dry-run engine is modelled as in `simulate`.  The `include_*`
flags are the constructor arguments of `SafetyReport`. -/
def generate (sql : String) (p : ParsedStmt)
    (include_rollback include_dry_run : Bool)
    (rollbackRes : Except String String)
    (execSql : ExecSql) (st : EngineState) : Report :=
  let impact_radius := get_impact_radius p
  let risk_assessment := assess_risk p
  let rollback : Option String × Option String :=
    if include_rollback then
      match rollbackRes with
      | .ok script => (some script, none)
      | .error e => (some (rollbackPlaceholder e), some e)
    else (none, none)
  let dry_run_result : Option SimOutcome :=
    if include_dry_run then some (simulate sql p execSql st).1 else none
  let affected_tables := impact_radius.affected_tables
  let affected_columns := impact_radius.affected_columns
  { sql := sql
    risk_level := risk_assessment.risk_level
    statement_type := risk_assessment.statement_type
    tables_affected := affected_tables.length
    tables := affected_tables
    columns_affected := (affected_columns.map (fun kv => kv.2.length)).sum
    columns_by_table := affected_columns
    has_where := impact_radius.has_where
    warnings := risk_assessment.warnings
    explanation := risk_assessment.explanation
    rollback_script := rollback.1
    rollback_error := rollback.2
    dry_run := dry_run_result }

/-- The `analyze_sql` convenience entry point: construct the `SafetyReport`
(whose `__init__` parses, and therefore propagates the parse failure) and
generate the report. -/
def analyze_sql (parseOracle : String → Except String ParsedStmt)
    (rollbackRes : Except String String) (execSql : ExecSql)
    (st : EngineState) (sql : String)
    (include_rollback include_dry_run : Bool) : Except String Report :=
  match sqlparser_init parseOracle sql with
  | .error e => .error e
  | .ok p => .ok (generate sql p include_rollback include_dry_run rollbackRes execSql st)

/-! ## Concrete fixtures (model parses of the spec's example statements and
small engine states, used by witnesses and counterexamples) -/

/-- Model parse of `UPDATE users SET status = 'inactive'` (no WHERE). -/
def pUpdateUsers : ParsedStmt :=
  { nodeKind := "UPDATE"
    root := .updateRoot (some "users") ["status"]
    tables := ["users"]
    hasWhere := false
    whereText := none }

/-- Model parse of `UPDATE users SET name = 'x'` (no WHERE): same statement
type as `pUpdateUsers`, different column and literal. -/
def pUpdateUsers2 : ParsedStmt :=
  { nodeKind := "UPDATE"
    root := .updateRoot (some "users") ["name"]
    tables := ["users"]
    hasWhere := false
    whereText := none }

/-- Model parse of `DELETE FROM users` (no WHERE). -/
def pDeleteUsers : ParsedStmt :=
  { nodeKind := "DELETE"
    root := .plainRoot
    tables := ["users"]
    hasWhere := false
    whereText := none }

/-- Model parse of `SELECT * FROM users`. -/
def pSelectUsers : ParsedStmt :=
  { nodeKind := "SELECT"
    root := .plainRoot
    tables := ["users"]
    hasWhere := false
    whereText := none }

/-- Model parse of `DROP TABLE users`. -/
def pDropUsers : ParsedStmt :=
  { nodeKind := "DROP"
    root := .plainRoot
    tables := ["users"]
    hasWhere := false
    whereText := none }

/-- Model parse of `TRUNCATE TABLE users` (sqlglot root class
`TruncateTable`). -/
def pTruncateUsers : ParsedStmt :=
  { nodeKind := "TRUNCATETABLE"
    root := .plainRoot
    tables := ["users"]
    hasWhere := false
    whereText := none }

/-- Model parse of `ALTER TABLE users ADD COLUMN age INT`. -/
def pAlterUsers : ParsedStmt :=
  { nodeKind := "ALTER"
    root := .plainRoot
    tables := ["users"]
    hasWhere := false
    whereText := none }

/-- The statement text of `pAlterUsers`. -/
def alterAddAgeSql : String := "ALTER TABLE users ADD COLUMN age INT"

/-- Model parse of `INSERT INTO users VALUES (1, 'x')` (no column list, so
`insert.this` is the `exp.Table` itself and its name is the table's). -/
def pInsertUsers : ParsedStmt :=
  { nodeKind := "INSERT"
    root := .insertRoot "users" []
    tables := ["users"]
    hasWhere := false
    whereText := none }

/-- An empty engine (no seeded tables). -/
def stEmpty : EngineState := { tables := [] }

/-- An engine seeded with a two-row `users` table. -/
def stUsersTwoRows : EngineState :=
  { tables := [("users", [["1", "alice"], ["2", "bob"]])] }

/-- Engine semantics of a statement that removes every row of `users`
(e.g. `TRUNCATE TABLE users` executed by the real engine). -/
def execTruncateUsers : ExecSql :=
  fun _ => .ok ({ tables := [("users", [])] }, [])

/-- Engine semantics of a read-only statement returning three rows. -/
def execSelectThreeRows : ExecSql :=
  fun st => .ok (st, [["1"], ["2"], ["3"]])

/-- Engine semantics of a statement that deletes one row of `users`. -/
def execDeleteOneRow : ExecSql :=
  fun _ => .ok ({ tables := [("users", [["2", "bob"]])] }, [])

/-- Engine semantics of a statement the engine rejects. -/
def execReject : ExecSql := fun _ => .error "Binder Error: some hard failure"

/-- A parsing-library oracle that rejects every input (malformed SQL),
raising a `ParseError` with a message. -/
def parseFailOracle : String → Except String ParsedStmt :=
  fun _ => .error "Invalid expression / Unexpected token"

/-- A parsing-library oracle that parses every input as
`UPDATE users SET status = 'inactive'`. -/
def parseUpdateOracle : String → Except String ParsedStmt :=
  fun _ => .ok pUpdateUsers

/-- A rollback collaborator that fails (e.g. the LLM service is down). -/
def rollbackFail : Except String String := .error "LLM service unavailable"

theorem strContains_iff {text pat : String} :
    strContains text pat = true ↔ pat.data <:+: text.data := by
  simp [strContains]

theorem contains_iff {l : List String} {a : String} :
    l.contains a = true ↔ a ∈ l := by
  simp [List.contains_iff_exists_mem_beq]

theorem infix_append_left {l a : List Char} (b : List Char) (h : l <:+: a) :
    l <:+: a ++ b :=
  h.trans (List.prefix_append a b).isInfix

theorem infix_append_right {l b : List Char} (a : List Char) (h : l <:+: b) :
    l <:+: a ++ b :=
  h.trans (List.suffix_append a b).isInfix

/-- Every character of `natStr n` is a decimal digit. -/
theorem natStr_digits (n : Nat) : ∀ c ∈ (natStr n).data, '0' ≤ c ∧ c ≤ '9' := by
  induction n using Nat.strong_induction_on with
  | _ n ih =>
    rw [natStr]
    split
    · next h =>
      intro c hc
      interval_cases n <;> simp_all
    · next h =>
      intro c hc
      rw [String.data_append] at hc
      rcases List.mem_append.mp hc with h1 | h2
      · exact ih (n / 10) (Nat.div_lt_self (by omega) (by omega)) c h1
      · have h10 : n % 10 < 10 := Nat.mod_lt _ (by omega)
        have : c = Char.ofNat (48 + n % 10) := by
          simpa using h2
        subst this
        set m := n % 10 with hm
        interval_cases m <;> decide

/-- `t ∈ ts` occurs as a substring of `", ".join(ts)`. -/
theorem joinComma_substring {t : String} {ts : List String} (h : t ∈ ts) :
    t.data <:+: (joinComma ts).data := by
  induction ts with
  | nil => cases h
  | cons x xs ih =>
    cases xs with
    | nil =>
      have ht : t = x := List.mem_singleton.mp (by simpa using h)
      subst ht
      exact List.infix_refl _
    | cons y ys =>
      show t.data <:+: (x ++ ", " ++ joinComma (y :: ys)).data
      rw [String.data_append, String.data_append]
      rcases List.mem_cons.mp h with h1 | h2
      · subst h1
        exact infix_append_left _ (infix_append_left _ (List.infix_refl _))
      · exact infix_append_right _ (ih h2)

/-- The fan-out warning never contains the word `CRITICAL`, whatever the
table count: it has no uppercase `C` at all (its variable part is digits). -/
theorem fanout_no_critical (n : Nat) :
    strContains (fanoutWarning n) "CRITICAL" = false := by
  cases hb : strContains (fanoutWarning n) "CRITICAL" with
  | false => rfl
  | true =>
    exfalso
    have hinf := strContains_iff.mp hb
    have hC : 'C' ∈ (fanoutWarning n).data := hinf.subset (by decide)
    unfold fanoutWarning at hC
    rw [String.data_append, String.data_append] at hC
    rcases List.mem_append.mp hC with hC | hC
    · rcases List.mem_append.mp hC with hC | hC
      · revert hC; decide
      · have := natStr_digits n 'C' hC
        revert this; decide
    · revert hC; decide

/-- The missing-WHERE warning always contains the word `CRITICAL`. -/
theorem criticalWarning_has_critical (st : String) (ts : List String) :
    strContains (criticalWarning st ts) "CRITICAL" = true := by
  rw [strContains_iff]
  unfold criticalWarning
  rw [String.data_append, String.data_append, String.data_append]
  exact infix_append_left _ (infix_append_left _ (infix_append_left _
    (infix_append_left _ (by decide))))

/-- The missing-WHERE warning states that all rows are affected. -/
theorem criticalWarning_has_all_rows (st : String) (ts : List String) :
    strContains (criticalWarning st ts) "will affect ALL rows" = true := by
  rw [strContains_iff]
  unfold criticalWarning
  rw [String.data_append, String.data_append, String.data_append]
  exact infix_append_left _ (infix_append_left _
    (infix_append_right _ (by decide)))

/-- The missing-WHERE warning names every affected table. -/
theorem criticalWarning_names_tables (st : String) {ts : List String} {t : String}
    (h : t ∈ ts) : strContains (criticalWarning st ts) t = true := by
  rw [strContains_iff]
  unfold criticalWarning
  rw [String.data_append, String.data_append, String.data_append]
  have hne : ts ≠ [] := by rintro rfl; cases h
  rw [if_pos hne]
  exact infix_append_left _ (infix_append_right _ (joinComma_substring h))

/-- The engine's missing-table message is classified as an expected,
non-fatal condition by the substring heuristic. -/
theorem missingTableMsg_classified (t : String) :
    isMissingTableError (missingTableMsg t) = true := by
  unfold isMissingTableError
  rw [Bool.or_eq_true]
  left
  rw [strContains_iff]
  unfold missingTableMsg
  rw [String.data_append, String.data_append]
  exact infix_append_right _ (by decide)

/-! ## Claim theorems -/

/-- C1: for every parsed SQL statement, the risk level assigned by
`RiskAssessor` is exactly the fixed mapping by statement type — ALTER, DROP,
TRUNCATE yield High; UPDATE, DELETE yield Medium; SELECT, INSERT yield Low;
every other statement type yields Medium — and the result depends only on
the statement type, hence not on literal values or column names (any two
parses with the same statement type get the same risk level). -/
theorem c1_risk_level_mapping (p q : ParsedStmt)
    (h : get_statement_type p = get_statement_type q) :
    (assess_risk p).risk_level = (assess_risk q).risk_level
    ∧ ((get_statement_type p = "ALTER" ∨ get_statement_type p = "DROP" ∨
          get_statement_type p = "TRUNCATE") →
        (assess_risk p).risk_level = "High")
    ∧ ((get_statement_type p = "UPDATE" ∨ get_statement_type p = "DELETE") →
        (assess_risk p).risk_level = "Medium")
    ∧ ((get_statement_type p = "SELECT" ∨ get_statement_type p = "INSERT") →
        (assess_risk p).risk_level = "Low")
    ∧ (get_statement_type p ∉ HIGH_RISK_STATEMENTS ∧
       get_statement_type p ∉ MEDIUM_RISK_STATEMENTS ∧
       get_statement_type p ∉ LOW_RISK_STATEMENTS →
        (assess_risk p).risk_level = "Medium") := by
  have key : ∀ r : ParsedStmt,
      (assess_risk r).risk_level = determine_risk_level (get_statement_type r) :=
    fun _ => rfl
  refine ⟨?_, ?_, ?_, ?_, ?_⟩
  · rw [key, key, h]
  · rintro (h1 | h1 | h1) <;> rw [key, h1] <;> decide
  · rintro (h1 | h1) <;> rw [key, h1] <;> decide
  · rintro (h1 | h1) <;> rw [key, h1] <;> decide
  · rintro ⟨h1, h2, h3⟩
    rw [key]
    unfold determine_risk_level
    rw [if_neg (fun hc => h1 (contains_iff.mp hc)),
        if_neg (fun hc => h2 (contains_iff.mp hc)),
        if_neg (fun hc => h3 (contains_iff.mp hc))]

/-- Witness for C1: two UPDATE statements differing only in the column name
and literal value get the same risk level. -/
theorem c1_witness :
    get_statement_type pUpdateUsers = get_statement_type pUpdateUsers2 ∧
    (assess_risk pUpdateUsers).risk_level = (assess_risk pUpdateUsers2).risk_level ∧
    (assess_risk pUpdateUsers).risk_level = "Medium" :=
  ⟨by decide,
   (c1_risk_level_mapping pUpdateUsers pUpdateUsers2 (by decide)).1,
   (c1_risk_level_mapping pUpdateUsers pUpdateUsers2 (by decide)).2.2.1
     (Or.inl (by decide))⟩

/-- For the all-columns statement kinds the per-table column sets are all
empty, so both the per-table sum and the joined set are zero/empty. -/
theorem columns_empty_map (ts : List String) :
    (((ts.map (fun t => (t, ([] : List String)))).map (fun kv => kv.2.length)).sum = 0)
    ∧ ((ts.map (fun t => (t, ([] : List String)))).map Prod.snd).flatten = [] := by
  induction ts with
  | nil => simp
  | cons x xs ih => simpa using ih

/-- Summing the per-table column-set sizes equals the number of distinct
column names across all tables: at most one table ever maps to a non-empty
(deduplicated) column set. -/
theorem columns_sum_eq_distinct (p : ParsedStmt) :
    ((get_affected_columns p).map (fun kv => kv.2.length)).sum
      = ((get_affected_columns p).map Prod.snd).flatten.dedup.length := by
  unfold get_affected_columns
  by_cases hU : get_statement_type p = "UPDATE"
  · rw [if_pos hU]
    cases p.root with
    | updateRoot tt sc => simp [List.dedup_idem]
    | insertRoot n c => simp
    | plainRoot => simp
  · rw [if_neg hU]
    by_cases hI : get_statement_type p = "INSERT"
    · rw [if_pos hI]
      cases p.root with
      | updateRoot tt sc => simp
      | insertRoot n c => simp [List.dedup_idem]
      | plainRoot => simp
    · rw [if_neg hI]
      by_cases hD : get_statement_type p = "DELETE"
      · rw [if_pos hD, (columns_empty_map _).1, (columns_empty_map _).2]
        simp
      · rw [if_neg hD]
        by_cases hA : get_statement_type p = "ALTER" ∨ get_statement_type p = "DROP"
            ∨ get_statement_type p = "TRUNCATE"
        · rw [if_pos hA, (columns_empty_map _).1, (columns_empty_map _).2]
          simp
        · rw [if_neg hA]
          simp

/-- C10: the composed report's aggregate counts are the number of distinct
affected tables and the number of distinct affected column names across all
tables (no column is counted twice). -/
theorem c10_aggregate_counts (sql : String) (p : ParsedStmt)
    (include_rollback include_dry_run : Bool)
    (rollbackRes : Except String String) (execSql : ExecSql) (st : EngineState) :
    (generate sql p include_rollback include_dry_run rollbackRes execSql st).tables_affected
      = p.tables.dedup.length
    ∧ (generate sql p include_rollback include_dry_run rollbackRes execSql st).columns_affected
      = ((get_affected_columns p).map Prod.snd).flatten.dedup.length := by
  constructor
  · rfl
  · show ((get_affected_columns p).map (fun kv => kv.2.length)).sum = _
    exact columns_sum_eq_distinct p

/-- C5: for every UPDATE or DELETE without a WHERE clause, the warning list
is exactly the CRITICAL missing-WHERE warning followed by the fan-out
warning when more than three tables are involved (the High-risk structural
rule cannot fire for these statement types, so the three rules' outputs
appear concatenated in their fixed order); it contains exactly one warning
with the word `CRITICAL`, and that warning names every affected table and
states that ALL rows are affected. -/
theorem c5_missing_where_critical (p : ParsedStmt)
    (hty : get_statement_type p = "UPDATE" ∨ get_statement_type p = "DELETE")
    (hw : p.hasWhere = false) :
    (assess_risk p).warnings =
      criticalWarning (get_statement_type p) (get_affected_tables p) ::
        (if (get_affected_tables p).length > 3
          then [fanoutWarning (get_affected_tables p).length] else [])
    ∧ ((assess_risk p).warnings.filter (fun w => strContains w "CRITICAL")).length = 1
    ∧ (∀ t ∈ get_affected_tables p,
        strContains (criticalWarning (get_statement_type p) (get_affected_tables p)) t
          = true)
    ∧ strContains (criticalWarning (get_statement_type p) (get_affected_tables p))
        "will affect ALL rows" = true := by
  have hwar : (assess_risk p).warnings =
      generate_warnings (get_statement_type p) (get_impact_radius p) := rfl
  have hshape : (assess_risk p).warnings =
      criticalWarning (get_statement_type p) (get_affected_tables p) ::
        (if (get_affected_tables p).length > 3
          then [fanoutWarning (get_affected_tables p).length] else []) := by
    rw [hwar]
    unfold generate_warnings
    rcases hty with hty | hty <;>
      rw [hty] <;>
      simp [get_impact_radius, has_where_clause, hw, hty, HIGH_RISK_STATEMENTS]
  refine ⟨hshape, ?_, ?_, ?_⟩
  · rw [hshape]
    by_cases hlen : (get_affected_tables p).length > 3
    · rw [if_pos hlen]
      simp [List.filter, criticalWarning_has_critical, fanout_no_critical]
    · rw [if_neg hlen]
      simp [List.filter, criticalWarning_has_critical]
  · intro t ht
    exact criticalWarning_names_tables _ ht
  · exact criticalWarning_has_all_rows _ _

/-- Witness for C5 at `UPDATE users SET status = 'inactive'` (no WHERE). -/
theorem c5_witness :
    (assess_risk pUpdateUsers).warnings =
      criticalWarning (get_statement_type pUpdateUsers) (get_affected_tables pUpdateUsers) ::
        (if (get_affected_tables pUpdateUsers).length > 3
          then [fanoutWarning (get_affected_tables pUpdateUsers).length] else [])
    ∧ ((assess_risk pUpdateUsers).warnings.filter
        (fun w => strContains w "CRITICAL")).length = 1
    ∧ (∀ t ∈ get_affected_tables pUpdateUsers,
        strContains
          (criticalWarning (get_statement_type pUpdateUsers)
            (get_affected_tables pUpdateUsers)) t = true)
    ∧ strContains
        (criticalWarning (get_statement_type pUpdateUsers)
          (get_affected_tables pUpdateUsers)) "will affect ALL rows" = true :=
  c5_missing_where_critical pUpdateUsers (Or.inl (by decide)) (by decide)

/-- C7: for every SELECT statement the engine accepts, the simulation
outcome is successful, the preview is the first 10 of the returned rows
(hence at most 10 rows), and `estimated_rows_affected` is the total number
of rows the query returned. -/
theorem c7_select_preview (sql : String) (p : ParsedStmt) (execSql : ExecSql)
    (st st' : EngineState) (rows : List Row)
    (hty : get_statement_type p = "SELECT")
    (hexec : execSql st = .ok (st', rows)) :
    (simulate sql p execSql st).1.simulation_successful = true
    ∧ (simulate sql p execSql st).1.preview = some (rows.take 10)
    ∧ (rows.take 10).length ≤ 10
    ∧ (simulate sql p execSql st).1.estimated_rows_affected
        = some (.num rows.length) := by
  have hred : (simulate sql p execSql st).1 =
      { simulation_successful := true
        statement_type := get_statement_type p
        affected_tables := get_affected_tables p
        preview := some (rows.take 10)
        estimated_rows_affected := some (.num rows.length) } := by
    simp [simulate, get_impact_radius, hty, hexec]
  refine ⟨by rw [hred], by rw [hred], ?_, by rw [hred]⟩
  simp [List.length_take]

/-- Witness for C7: `SELECT * FROM users` against an engine that returns
three rows. -/
theorem c7_witness :
    (simulate "SELECT * FROM users" pSelectUsers execSelectThreeRows stEmpty).1.simulation_successful
      = true
    ∧ (simulate "SELECT * FROM users" pSelectUsers execSelectThreeRows stEmpty).1.preview
      = some ([["1"], ["2"], ["3"]].take 10)
    ∧ ([("1" : String)].take 10).length ≤ 10
    ∧ (simulate "SELECT * FROM users" pSelectUsers execSelectThreeRows stEmpty).1.estimated_rows_affected
      = some (.num ([["1"], ["2"], ["3"]] : List Row).length) := by
  have h := c7_select_preview "SELECT * FROM users" pSelectUsers execSelectThreeRows
    stEmpty stEmpty [["1"], ["2"], ["3"]] (by decide) rfl
  exact ⟨h.1, h.2.1, by decide, h.2.2.2⟩

/-- C4: simulating an UPDATE or DELETE whose target table does not exist in
the engine never raises to the caller (in the model, `simulate` is a total
function and this branch returns normally): the outcome has
`successful = false` and a non-empty `note` explaining that full simulation
needs real schema, and the engine state is untouched. -/
theorem c4_missing_table_nonfatal (sql : String) (p : ParsedStmt)
    (execSql : ExecSql) (st : EngineState) (t : String) (rest : List String)
    (hty : get_statement_type p = "UPDATE" ∨ get_statement_type p = "DELETE")
    (haff : get_affected_tables p = t :: rest)
    (hmiss : st.tables.lookup t = none) :
    (simulate sql p execSql st).1.simulation_successful = false
    ∧ (simulate sql p execSql st).1.note = some missingTableNote
    ∧ missingTableNote ≠ ""
    ∧ (simulate sql p execSql st).2 = st := by
  have hcount : countStar st t = .error (missingTableMsg t) := by
    unfold countStar
    rw [hmiss]
  rcases hty with hty | hty
  · refine ⟨?_, ?_, by decide, ?_⟩ <;>
      simp [simulate, get_impact_radius, hty, haff, hcount,
        missingTableMsg_classified]
  · refine ⟨?_, ?_, by decide, ?_⟩ <;>
      simp [simulate, simulate.simulateDeleteErr, get_impact_radius, hty, haff,
        hcount, missingTableMsg_classified]

/-- Witness for C4: `UPDATE users SET status = 'inactive'` simulated against
an empty engine. -/
theorem c4_witness :
    (simulate "UPDATE users SET status = 'inactive'" pUpdateUsers execReject stEmpty).1.simulation_successful
      = false
    ∧ (simulate "UPDATE users SET status = 'inactive'" pUpdateUsers execReject stEmpty).1.note
      = some missingTableNote
    ∧ missingTableNote ≠ ""
    ∧ (simulate "UPDATE users SET status = 'inactive'" pUpdateUsers execReject stEmpty).2
      = stEmpty :=
  c4_missing_table_nonfatal "UPDATE users SET status = 'inactive'" pUpdateUsers
    execReject stEmpty "users" [] (Or.inl (by decide)) (by decide) rfl

/-- C8: for a DELETE whose target table exists before execution, whose
execution the engine accepts, and whose target table still exists after
execution, the outcome is successful and `estimated_rows_affected` is the
row count before minus the row count after. -/
theorem c8_delete_row_counts (sql : String) (p : ParsedStmt) (execSql : ExecSql)
    (st st' : EngineState) (out : List Row) (t : String) (rest : List String)
    (rowsBefore rowsAfter : List Row)
    (hty : get_statement_type p = "DELETE")
    (haff : get_affected_tables p = t :: rest)
    (hbefore : st.tables.lookup t = some rowsBefore)
    (hexec : execSql st = .ok (st', out))
    (hafter : st'.tables.lookup t = some rowsAfter) :
    (simulate sql p execSql st).1.simulation_successful = true
    ∧ (simulate sql p execSql st).1.estimated_rows_affected
        = some (.num ((rowsBefore.length : Int) - (rowsAfter.length : Int)))
    ∧ (simulate sql p execSql st).2 = st' := by
  have hc1 : countStar st t = .ok rowsBefore.length := by
    unfold countStar
    rw [hbefore]
  have hc2 : countStar st' t = .ok rowsAfter.length := by
    unfold countStar
    rw [hafter]
  refine ⟨?_, ?_, ?_⟩ <;>
    simp [simulate, get_impact_radius, hty, haff, hc1, hc2, hexec]

/-- Witness for C8: `DELETE FROM users` removing one of two rows. -/
theorem c8_witness :
    (simulate "DELETE FROM users" pDeleteUsers execDeleteOneRow stUsersTwoRows).1.simulation_successful
      = true
    ∧ (simulate "DELETE FROM users" pDeleteUsers execDeleteOneRow stUsersTwoRows).1.estimated_rows_affected
      = some (.num ((([["1", "alice"], ["2", "bob"]] : List Row).length : Int)
          - (([["2", "bob"]] : List Row).length : Int)))
    ∧ (simulate "DELETE FROM users" pDeleteUsers execDeleteOneRow stUsersTwoRows).2
      = { tables := [("users", [["2", "bob"]])] } :=
  c8_delete_row_counts "DELETE FROM users" pDeleteUsers execDeleteOneRow
    stUsersTwoRows { tables := [("users", [["2", "bob"]])] } [] "users" []
    [["1", "alice"], ["2", "bob"]] [["2", "bob"]]
    (by decide) (by decide) rfl rfl rfl

/-- C3 counterexample: a TRUNCATE statement simulated against an engine in
which the (seeded) target table exists IS executed against the engine — the
final engine state differs from the initial one — and the outcome has
`successful = true`, contradicting "never executed ... always
`successful=false`". -/
theorem c3_counterexample :
    (simulate "TRUNCATE TABLE users" pTruncateUsers execTruncateUsers stUsersTwoRows).1.simulation_successful
      = true
    ∧ (simulate "TRUNCATE TABLE users" pTruncateUsers execTruncateUsers stUsersTwoRows).2
      ≠ stUsersTwoRows := by
  constructor
  · rfl
  · decide

/-- C3 (amended): a DROP statement is never executed against the engine (the
outcome does not depend on the statement's engine semantics and the engine
state is unchanged) and always yields `successful=false`, with an advisory
note naming every object that would be destroyed whenever at least one
affected object was identified.  A TRUNCATE statement, by contrast, is
attempted: when the target table is missing the outcome is
`successful=false` with an advisory syntax-validated note (which does not
name the table) and the engine is untouched; when the target table exists
and execution succeeds the statement really runs, with `successful=true`. -/
theorem c3_drop_truncate_behavior (sql : String) (p : ParsedStmt)
    (execSql execSql' : ExecSql) (st st' : EngineState) (out : List Row)
    (t : String) (rest : List String) (rowsBefore rowsAfter : List Row) :
    (get_statement_type p = "DROP" →
      simulate sql p execSql st = simulate sql p execSql' st
      ∧ (simulate sql p execSql st).2 = st
      ∧ (simulate sql p execSql st).1.simulation_successful = false
      ∧ (get_affected_tables p = t :: rest →
          (simulate sql p execSql st).1.note
            = some ("DROP statement will permanently delete: "
                ++ joinComma (get_affected_tables p)
                ++ ". This cannot be simulated without actual database objects.")
          ∧ ∀ u ∈ get_affected_tables p,
              strContains ("DROP statement will permanently delete: "
                ++ joinComma (get_affected_tables p)
                ++ ". This cannot be simulated without actual database objects.") u
                = true))
    ∧ (get_statement_type p = "TRUNCATE" → get_affected_tables p = t :: rest →
        st.tables.lookup t = none →
        (simulate sql p execSql st).1.simulation_successful = false
        ∧ (simulate sql p execSql st).2 = st
        ∧ (simulate sql p execSql st).1.note
            = some "TRUNCATE statement syntax validated. In production, this will remove all rows from the table.")
    ∧ (get_statement_type p = "TRUNCATE" → get_affected_tables p = t :: rest →
        st.tables.lookup t = some rowsBefore →
        execSql st = .ok (st', out) →
        st'.tables.lookup t = some rowsAfter →
        (simulate sql p execSql st).1.simulation_successful = true
        ∧ (simulate sql p execSql st).2 = st') := by
  refine ⟨?_, ?_, ?_⟩
  · intro hty
    refine ⟨?_, ?_, ?_, ?_⟩
    · rcases haff : get_affected_tables p with _ | ⟨t0, r0⟩ <;>
        simp [simulate, get_impact_radius, hty, haff]
    · rcases haff : get_affected_tables p with _ | ⟨t0, r0⟩ <;>
        simp [simulate, get_impact_radius, hty, haff]
    · rcases haff : get_affected_tables p with _ | ⟨t0, r0⟩ <;>
        simp [simulate, get_impact_radius, hty, haff]
    · intro haff
      constructor
      · simp [simulate, get_impact_radius, hty, haff]
      · intro u hu
        rw [strContains_iff, String.data_append, String.data_append]
        exact infix_append_left _ (infix_append_right _ (joinComma_substring hu))
  · intro hty haff hmiss
    have hcount : countStar st t = .error (missingTableMsg t) := by
      unfold countStar
      rw [hmiss]
    refine ⟨?_, ?_, ?_⟩ <;>
      simp [simulate, simulate.simulateTruncateErr, get_impact_radius, hty,
        haff, hcount, missingTableMsg_classified]
  · intro hty haff hbefore hexec hafter
    have hc1 : countStar st t = .ok rowsBefore.length := by
      unfold countStar
      rw [hbefore]
    have hc2 : countStar st' t = .ok rowsAfter.length := by
      unfold countStar
      rw [hafter]
    constructor <;>
      simp [simulate, get_impact_radius, hty, haff, hc1, hc2, hexec]

/-- Witness for the amended C3: `DROP TABLE users` against an empty engine. -/
theorem c3_witness :
    (simulate "DROP TABLE users" pDropUsers execReject stEmpty).2 = stEmpty
    ∧ (simulate "DROP TABLE users" pDropUsers execReject stEmpty).1.simulation_successful
      = false
    ∧ (simulate "DROP TABLE users" pDropUsers execReject stEmpty).1.note
      = some ("DROP statement will permanently delete: "
          ++ joinComma (get_affected_tables pDropUsers)
          ++ ". This cannot be simulated without actual database objects.") := by
  have h := (c3_drop_truncate_behavior "DROP TABLE users" pDropUsers execReject
    execTruncateUsers stEmpty stEmpty [] "users" [] [] []).1 (by decide)
  exact ⟨h.2.1, h.2.2.1, (h.2.2.2 (by decide)).1⟩

/-- C9: for `ALTER TABLE users ADD COLUMN age INT`, the ALTER structural
sub-analysis identifies an ADD COLUMN operation on column `age` with its
type (reported uppercased, `ADD COLUMN AGE (INT)`), the impact summary is
the additive-change message, and the analysis is attached to the simulation
outcome for every engine state and engine semantics — in particular whether
or not the table exists in the simulation engine. -/
theorem c9_alter_add_column (execSql : ExecSql) (st : EngineState) :
    (simulate alterAddAgeSql pAlterUsers execSql st).1.alter
      = some (analyze_alter_statement alterAddAgeSql ["users"])
    ∧ (analyze_alter_statement alterAddAgeSql ["users"]).operations
      = ["ADD COLUMN AGE (INT)"]
    ∧ (analyze_alter_statement alterAddAgeSql ["users"]).columns_affected
      = ["AGE"]
    ∧ (analyze_alter_statement alterAddAgeSql ["users"]).impact_summary
      = some addImpact
    ∧ strContains addImpact "Will add" = true := by
  have hty : get_statement_type pAlterUsers = "ALTER" := by decide
  have haff : get_affected_tables pAlterUsers = ["users"] := by decide
  refine ⟨?_, by rfl, by rfl, by rfl, by rfl⟩
  by_cases hex : tableExists st "users"
  · cases hx : execSql st with
    | error e =>
      by_cases hcl : (strContains (pyLower e) "not supported"
          || strContains (pyLower e) "syntax") = true
      · simp [simulate, get_impact_radius, hty, haff, hex, hx, hcl]
      · simp [simulate, get_impact_radius, hty, haff, hex, hx, hcl]
    | ok pr =>
      obtain ⟨st', out⟩ := pr
      simp [simulate, get_impact_radius, hty, haff, hex, hx]
  · simp [simulate, get_impact_radius, hty, haff, hex]

/-- Witness for C9 at the empty engine (table absent) with rejecting engine
semantics. -/
theorem c9_witness :
    (simulate alterAddAgeSql pAlterUsers execReject stEmpty).1.alter
      = some (analyze_alter_statement alterAddAgeSql ["users"])
    ∧ (analyze_alter_statement alterAddAgeSql ["users"]).operations
      = ["ADD COLUMN AGE (INT)"]
    ∧ (analyze_alter_statement alterAddAgeSql ["users"]).columns_affected
      = ["AGE"]
    ∧ (analyze_alter_statement alterAddAgeSql ["users"]).impact_summary
      = some addImpact
    ∧ strContains addImpact "Will add" = true :=
  c9_alter_add_column execReject stEmpty

/-- C6: a parse failure is re-raised carrying the underlying parser's
message and is the only error kind that prevents report generation entirely
— `analyze_sql` returns no report exactly then.  When parsing succeeds a
report is always produced: a rollback-generation failure only fills the
rollback section with a placeholder script and the recorded error (risk,
impact and dry-run sections are computed regardless of the rollback
outcome), and a failed simulation still appears as the report's `dry_run`
section with the rest of the report intact. -/
theorem c6_parse_error_only_fatal (parseOracle : String → Except String ParsedStmt)
    (rollbackRes : Except String String) (execSql : ExecSql) (st : EngineState)
    (sql m : String) (p : ParsedStmt) (e : String) :
    (parseOracle (pyStrip sql) = .error m →
      analyze_sql parseOracle rollbackRes execSql st sql true true
        = .error ("Failed to parse SQL: " ++ m))
    ∧ (parseOracle (pyStrip sql) = .ok p →
        analyze_sql parseOracle rollbackRes execSql st sql true true
          = .ok (generate sql p true true rollbackRes execSql st)
        ∧ (generate sql p true true rollbackRes execSql st).risk_level
            = (assess_risk p).risk_level
        ∧ (generate sql p true true rollbackRes execSql st).warnings
            = (assess_risk p).warnings
        ∧ (generate sql p true true rollbackRes execSql st).dry_run
            = some (simulate sql p execSql st).1
        ∧ (rollbackRes = .error e →
            (generate sql p true true rollbackRes execSql st).rollback_error = some e
            ∧ (generate sql p true true rollbackRes execSql st).rollback_script
              = some (rollbackPlaceholder e))) := by
  constructor
  · intro h
    unfold analyze_sql sqlparser_init
    rw [h]
  · intro h
    have hmk : sqlparser_init parseOracle sql = .ok p := by
      unfold sqlparser_init
      rw [h]
    refine ⟨?_, rfl, rfl, rfl, ?_⟩
    · unfold analyze_sql
      rw [hmk]
    · intro he
      constructor <;> simp [generate, he]

/-- Witness for C6: a failing parse oracle aborts the report with the
wrapped message; a succeeding parse with a failing rollback collaborator
still yields the full report with only the rollback section degraded. -/
theorem c6_witness :
    analyze_sql parseFailOracle rollbackFail execReject stEmpty
        "UPDATE users SET status = 'inactive'" true true
      = .error ("Failed to parse SQL: " ++ "Invalid expression / Unexpected token")
    ∧ analyze_sql parseUpdateOracle rollbackFail execReject stEmpty
        "UPDATE users SET status = 'inactive'" true true
      = .ok (generate "UPDATE users SET status = 'inactive'" pUpdateUsers true true
          rollbackFail execReject stEmpty)
    ∧ (generate "UPDATE users SET status = 'inactive'" pUpdateUsers true true
        rollbackFail execReject stEmpty).risk_level
      = (assess_risk pUpdateUsers).risk_level
    ∧ (generate "UPDATE users SET status = 'inactive'" pUpdateUsers true true
        rollbackFail execReject stEmpty).rollback_error
      = some "LLM service unavailable"
    ∧ (generate "UPDATE users SET status = 'inactive'" pUpdateUsers true true
        rollbackFail execReject stEmpty).rollback_script
      = some (rollbackPlaceholder "LLM service unavailable") := by
  have h1 := (c6_parse_error_only_fatal parseFailOracle rollbackFail execReject
    stEmpty "UPDATE users SET status = 'inactive'"
    "Invalid expression / Unexpected token" pUpdateUsers "LLM service unavailable").1 rfl
  have h2 := (c6_parse_error_only_fatal parseUpdateOracle rollbackFail execReject
    stEmpty "UPDATE users SET status = 'inactive'"
    "Invalid expression / Unexpected token" pUpdateUsers "LLM service unavailable").2 rfl
  exact ⟨h1, h2.1, h2.2.1, (h2.2.2.2.2 rfl).1, (h2.2.2.2.2 rfl).2⟩
